import Mathlib

/-!
Verification development for the emeal-api recipe search service.

The definitions below are a shallow embedding of the Go source:
`src/api/index.go` (REST handler `searchRecipes`, RPC handler
`mcpSearchRecipes`, shared `applyDietFilters`, the `dietPlans` table) and
`src/unnamed/part_000` (the `searchRecipesMCP` row loop).  SQL query
strings are built exactly as the source builds them, by string
concatenation; positional arguments are collected in a list.  Go map
iteration order is not deterministic, so every function that iterates a
Go map takes the iteration order as an explicit list parameter; theorems
relate such a parameter to the canonical (source-literal-order) entry
list by `List.Perm`.
-/

namespace Emeal

/-- Model of a Go `float64` value produced by `strconv.ParseFloat` or
arriving as a JSON number.  Finite values are carried as exact rationals;
the rounding of decimal literals to binary floating point is abstracted
away (no theorem below compares floats obtained from distinct strings). -/
inductive GoFloatVal where
  | finite (q : ℚ)
  | inf (neg : Bool)
  | nan
deriving DecidableEq

/-- A positional SQL argument as handed to `db.Query`: Go `string`,
`int`, or `float64` values (the three types the source ever appends). -/
inductive SqlArg where
  | sstr (s : String)
  | sint (n : Int)
  | sfloat (v : GoFloatVal)
deriving DecidableEq

/-- Numeric value of a list of decimal digit characters. -/
def digitsVal (l : List Char) : Nat :=
  l.foldl (fun n c => n * 10 + (c.toNat - 48)) 0

/-- Model of Go `strconv.Atoi` on a 64-bit platform: optional sign, one
or more decimal digits, value within the `int64` range; every other
input (including the empty string) yields an error, modeled as `none`. -/
def goAtoi (s : String) : Option Int :=
  match s.data with
  | [] => none
  | c :: rest =>
    let p : Bool × List Char :=
      if c = '-' then (true, rest)
      else if c = '+' then (false, rest)
      else (false, c :: rest)
    if p.2 ≠ [] ∧ p.2.all (·.isDigit) then
      let v : Int := if p.1 then -(digitsVal p.2 : Int) else (digitsVal p.2 : Int)
      if -(2 ^ 63) ≤ v ∧ v ≤ 2 ^ 63 - 1 then some v else none
    else none

/-- Exponent of a decimal float literal, parsed from the characters after
the `e`/`E`; `none` when the exponent part is malformed. -/
def goFloatExp : List Char → Option Int
  | [] => some 0
  | _ :: et =>
    match et with
    | [] => none
    | e1 :: erest =>
      let p : Bool × List Char :=
        if e1 = '-' then (true, erest)
        else if e1 = '+' then (false, erest)
        else (false, e1 :: erest)
      if p.2 ≠ [] ∧ p.2.all (·.isDigit) then
        some (if p.1 then -(digitsVal p.2 : Int) else (digitsVal p.2 : Int))
      else none

/-- Model of Go `strconv.ParseFloat (s, 64)`: optional sign, decimal
mantissa with optional fraction, optional decimal exponent, and the
case-insensitive `inf`/`infinity`/`nan` forms.  Values beyond the
`float64` range yield `ErrRange`, modeled as `none`.  Go's hexadecimal
float syntax and digit-separating underscores are omitted (no input in
this development uses them), and the value is kept as an exact rational
rather than rounded to binary (the range cutoff is likewise the exact
bound `2 ^ 1024`, written with `Nat.shiftLeft` to keep kernel reduction
cheap). -/
def goParseFloat (s : String) : Option GoFloatVal :=
  let low := s.data.map (fun c =>
    if 65 ≤ c.toNat ∧ c.toNat ≤ 90 then Char.ofNat (c.toNat + 32) else c)
  if low = "inf".data ∨ low = "+inf".data ∨ low = "infinity".data ∨
      low = "+infinity".data then
    some (.inf false)
  else if low = "-inf".data ∨ low = "-infinity".data then some (.inf true)
  else if low = "nan".data ∨ low = "+nan".data ∨ low = "-nan".data then some .nan
  else
    match s.data with
    | [] => none
    | c :: rest =>
      let p : Bool × List Char :=
        if c = '-' then (true, rest)
        else if c = '+' then (false, rest)
        else (false, c :: rest)
      let mant := p.2.takeWhile (fun ch => ch ≠ 'e' ∧ ch ≠ 'E')
      let epart := p.2.dropWhile (fun ch => ch ≠ 'e' ∧ ch ≠ 'E')
      let ip := mant.takeWhile (fun ch => ch ≠ '.')
      let dotfp := mant.dropWhile (fun ch => ch ≠ '.')
      let fp := match dotfp with | [] => ([] : List Char) | _ :: t => t
      if ip.all (·.isDigit) ∧ fp.all (·.isDigit) ∧ ip ++ fp ≠ [] then
        match goFloatExp epart with
        | none => none
        | some e =>
          let num : Nat := digitsVal (ip ++ fp)
          let shift : Int := e - fp.length
          let overflow : Bool :=
            if 0 ≤ shift then decide (Nat.shiftLeft 1 1024 ≤ num * 10 ^ shift.toNat)
            else decide (Nat.shiftLeft 1 1024 * 10 ^ (-shift).toNat ≤ num)
          if overflow then none
          else
            let mag : ℚ :=
              if 0 ≤ shift then ((num * 10 ^ shift.toNat : Nat) : ℚ)
              else (num : ℚ) / ((10 ^ (-shift).toNat : Nat) : ℚ)
            some (.finite (if p.1 then -mag else mag))
      else none

/-- A value of the `map[string]interface{}` entries in the static
`dietPlans` table: Go `int`, `string`, or `[]string`. -/
inductive FilterVal where
  | fint (n : Int)
  | fstr (s : String)
  | flist (l : List String)
deriving DecidableEq

/-- Entries of the `keto` plan's `Filters` map, in source-literal order. -/
def ketoFilters : List (String × FilterVal) :=
  [("max_carbs", .fint 20), ("min_fat", .fint 15),
   ("sort_by", .fstr "fat"), ("sort_order", .fstr "desc")]

/-- Entries of the `paleo` plan's `Filters` map, in source-literal order. -/
def paleoFilters : List (String × FilterVal) :=
  [("exclude_ingredients", .flist ["wheat", "grain", "dairy", "sugar", "legume", "bean"]),
   ("sort_by", .fstr "protein"), ("sort_order", .fstr "desc")]

/-- Entries of the `mediterranean` plan's `Filters` map, in source-literal order. -/
def mediterraneanFilters : List (String × FilterVal) :=
  [("include_ingredients", .flist ["olive", "fish", "vegetable", "fruit", "nut"]),
   ("max_sodium", .fint 1500), ("sort_by", .fstr "rating"), ("sort_order", .fstr "desc")]

/-- Entries of the `vegan` plan's `Filters` map, in source-literal order. -/
def veganFilters : List (String × FilterVal) :=
  [("exclude_ingredients",
    .flist ["meat", "chicken", "beef", "pork", "fish", "dairy", "milk", "cheese", "egg", "butter"]),
   ("sort_by", .fstr "fiber"), ("sort_order", .fstr "desc")]

/-- Entries of the `vegetarian` plan's `Filters` map, in source-literal order. -/
def vegetarianFilters : List (String × FilterVal) :=
  [("exclude_ingredients", .flist ["meat", "chicken", "beef", "pork", "fish", "seafood"]),
   ("sort_by", .fstr "protein"), ("sort_order", .fstr "desc")]

/-- Entries of the `low_carb` plan's `Filters` map, in source-literal order. -/
def lowCarbFilters : List (String × FilterVal) :=
  [("max_carbs", .fint 50), ("sort_by", .fstr "carbs"), ("sort_order", .fstr "asc")]

/-- Entries of the `high_protein` plan's `Filters` map, in source-literal order. -/
def highProteinFilters : List (String × FilterVal) :=
  [("min_protein", .fint 20), ("sort_by", .fstr "protein"), ("sort_order", .fstr "desc")]

/-- Entries of the `low_sodium` plan's `Filters` map, in source-literal order. -/
def lowSodiumFilters : List (String × FilterVal) :=
  [("max_sodium", .fint 1000), ("sort_by", .fstr "sodium"), ("sort_order", .fstr "asc")]

/-- Entries of the `diabetic` plan's `Filters` map, in source-literal order. -/
def diabeticFilters : List (String × FilterVal) :=
  [("max_carbs", .fint 45),
   ("exclude_ingredients", .flist ["sugar", "honey", "syrup", "candy"]),
   ("sort_by", .fstr "carbs"), ("sort_order", .fstr "asc")]

/-- Entries of the `heart_healthy` plan's `Filters` map, in source-literal order. -/
def heartHealthyFilters : List (String × FilterVal) :=
  [("max_sodium", .fint 1200), ("min_fiber", .fint 5),
   ("exclude_ingredients", .flist ["fried", "processed"]),
   ("sort_by", .fstr "fiber"), ("sort_order", .fstr "desc")]

/-- Lookup in the static `dietPlans` table (the `Filters` component; the
`Name`/`Description` strings play no role in query generation). -/
def dietPlansLookup : String → Option (List (String × FilterVal))
  | "keto" => some ketoFilters
  | "paleo" => some paleoFilters
  | "mediterranean" => some mediterraneanFilters
  | "vegan" => some veganFilters
  | "vegetarian" => some vegetarianFilters
  | "low_carb" => some lowCarbFilters
  | "high_protein" => some highProteinFilters
  | "low_sodium" => some lowSodiumFilters
  | "diabetic" => some diabeticFilters
  | "heart_healthy" => some heartHealthyFilters
  | _ => none

/-- The `"%" + s + "%"` wildcard-wrapped string argument. -/
def likeArg (s : String) : SqlArg := .sstr ("%" ++ s ++ "%")

/-- The ingredient loop inside `applyDietFilters`: one fragment and one
`%ingredient%` argument per list element, with no trimming. -/
def dietIngredientLoop (cond : String) (l : List String) (qa : String × List SqlArg) :
    String × List SqlArg :=
  l.foldl (fun qa ing => (qa.1 ++ cond, qa.2 ++ [likeArg ing])) qa

/-- One iteration of the `for key, value := range filters` loop in
`applyDietFilters` (src/api/index.go lines 912-992): the recognized range
keys require a Go `int` value, the ingredient keys require `[]string`,
and every other key (notably `sort_by` and `sort_order`) falls through
the `switch` with no effect. -/
def dietStep (qa : String × List SqlArg) (kv : String × FilterVal) : String × List SqlArg :=
  if kv.1 = "max_carbs" then
    match kv.2 with
    | .fint n => (qa.1 ++ " AND carbs <= ?", qa.2 ++ [.sint n])
    | _ => qa
  else if kv.1 = "min_carbs" then
    match kv.2 with
    | .fint n => (qa.1 ++ " AND carbs >= ?", qa.2 ++ [.sint n])
    | _ => qa
  else if kv.1 = "max_calories" then
    match kv.2 with
    | .fint n => (qa.1 ++ " AND calories <= ?", qa.2 ++ [.sint n])
    | _ => qa
  else if kv.1 = "min_calories" then
    match kv.2 with
    | .fint n => (qa.1 ++ " AND calories >= ?", qa.2 ++ [.sint n])
    | _ => qa
  else if kv.1 = "max_protein" then
    match kv.2 with
    | .fint n => (qa.1 ++ " AND protein <= ?", qa.2 ++ [.sint n])
    | _ => qa
  else if kv.1 = "min_protein" then
    match kv.2 with
    | .fint n => (qa.1 ++ " AND protein >= ?", qa.2 ++ [.sint n])
    | _ => qa
  else if kv.1 = "max_fat" then
    match kv.2 with
    | .fint n => (qa.1 ++ " AND fat <= ?", qa.2 ++ [.sint n])
    | _ => qa
  else if kv.1 = "min_fat" then
    match kv.2 with
    | .fint n => (qa.1 ++ " AND fat >= ?", qa.2 ++ [.sint n])
    | _ => qa
  else if kv.1 = "max_fiber" then
    match kv.2 with
    | .fint n => (qa.1 ++ " AND fiber <= ?", qa.2 ++ [.sint n])
    | _ => qa
  else if kv.1 = "min_fiber" then
    match kv.2 with
    | .fint n => (qa.1 ++ " AND fiber >= ?", qa.2 ++ [.sint n])
    | _ => qa
  else if kv.1 = "max_sodium" then
    match kv.2 with
    | .fint n => (qa.1 ++ " AND sodium <= ?", qa.2 ++ [.sint n])
    | _ => qa
  else if kv.1 = "min_sodium" then
    match kv.2 with
    | .fint n => (qa.1 ++ " AND sodium >= ?", qa.2 ++ [.sint n])
    | _ => qa
  else if kv.1 = "exclude_ingredients" then
    match kv.2 with
    | .flist l => dietIngredientLoop " AND ingredients NOT LIKE ?" l qa
    | _ => qa
  else if kv.1 = "include_ingredients" then
    match kv.2 with
    | .flist l => dietIngredientLoop " AND ingredients LIKE ?" l qa
    | _ => qa
  else qa

/-- `applyDietFilters` (src/api/index.go lines 912-992).  `it` is the
order in which Go iterates the plan's `Filters` map; callers relate it to
the canonical entry list by permutation. -/
def applyDietFilters (q : String) (args : List SqlArg) (it : List (String × FilterVal)) :
    String × List SqlArg :=
  it.foldl dietStep (q, args)

/-- The fixed SELECT prefix shared by every search query builder. -/
def baseSelect : String :=
  "SELECT id, name, description, image, prep_time_minutes, cook_time_minutes, total_time_minutes, servings, rating, ingredients, instructions, calories, protein, fat, carbs, fiber, sodium FROM recipes WHERE 1=1"

/-- Splitting a character list at every comma, keeping empty segments:
the behavior of Go `strings.Split (s, ",")` at the character level. -/
def splitCommaChars : List Char → List (List Char)
  | [] => [[]]
  | c :: rest =>
    if c = ',' then [] :: splitCommaChars rest
    else
      match splitCommaChars rest with
      | [] => [[c]]
      | t :: ts => (c :: t) :: ts

/-- Model of Go `strings.Split (s, ",")`; in particular `"" ↦ [""]` and a
trailing comma yields a trailing empty token. -/
def goSplitComma (s : String) : List String :=
  (splitCommaChars s.data).map (fun l => ⟨l⟩)

/-- Whether a character is ASCII whitespace.  Go `strings.TrimSpace`
trims `unicode.IsSpace` characters; the exotic Unicode spaces are
immaterial to every theorem below and omitted. -/
def isSpaceGo (c : Char) : Bool :=
  c = ' ' ∨ c = '\t' ∨ c = '\n' ∨ c = Char.ofNat 11 ∨ c = Char.ofNat 12 ∨ c = '\r'

/-- Model of Go `strings.TrimSpace`. -/
def goTrimSpace (s : String) : String :=
  ⟨((s.data.dropWhile isSpaceGo).reverse.dropWhile isSpaceGo).reverse⟩

/-- REST caller ingredient loop (src/api/index.go lines 674-688): one
fragment and one `%TrimSpace(token)%` argument per comma-separated token. -/
def trimIngredientLoop (cond : String) (l : List String) (qa : String × List SqlArg) :
    String × List SqlArg :=
  l.foldl (fun qa ing => (qa.1 ++ cond, qa.2 ++ [likeArg (goTrimSpace ing)])) qa

/-- The diet block of `searchRecipes` (src/api/index.go lines 660-664):
apply the plan's filters when the `diet` parameter names a known plan.
`dietIt` is the Go map iteration order of that plan's filter map. -/
def dietBlock (diet : String) (dietIt : List (String × FilterVal))
    (qa : String × List SqlArg) : String × List SqlArg :=
  if diet ≠ "" then
    match dietPlansLookup diet with
    | some _ => applyDietFilters qa.1 qa.2 dietIt
    | none => qa
  else qa

/-- Text-search block of `searchRecipes` (src/api/index.go lines 667-671). -/
def searchBlock (s : String) (qa : String × List SqlArg) : String × List SqlArg :=
  if s ≠ "" then
    (qa.1 ++ " AND (name LIKE ? OR description LIKE ?)", qa.2 ++ [likeArg s, likeArg s])
  else qa

/-- Ingredient block of `searchRecipes` (include at lines 674-680,
exclude at lines 682-688): split on commas, one fragment per token. -/
def ingredientBlock (cond : String) (s : String) (qa : String × List SqlArg) :
    String × List SqlArg :=
  if s ≠ "" then trimIngredientLoop cond (goSplitComma s) qa else qa

/-- One `strconv.Atoi`-guarded numeric filter of `searchRecipes`
(e.g. lines 691-696): fragment and argument are appended only when the
parameter is nonempty and parses as an integer. -/
def intFilterBlock (v : String) (frag : String) (qa : String × List SqlArg) :
    String × List SqlArg :=
  if v ≠ "" then
    match goAtoi v with
    | some n => (qa.1 ++ frag, qa.2 ++ [.sint n])
    | none => qa
  else qa

/-- One `strconv.ParseFloat`-guarded numeric filter of `searchRecipes`
(e.g. lines 705-710). -/
def floatFilterBlock (v : String) (frag : String) (qa : String × List SqlArg) :
    String × List SqlArg :=
  if v ≠ "" then
    match goParseFloat v with
    | some x => (qa.1 ++ frag, qa.2 ++ [.sfloat x])
    | none => qa
  else qa

/-- The query-string parameters read by the REST `searchRecipes` handler.
A plain `String` field models `c.Query` (absent parameter = `""`); the
two sort fields are `Option String` because `c.DefaultQuery` substitutes
its default only when the parameter is absent. -/
structure RestParams where
  diet : String := ""
  search : String := ""
  includeIngredients : String := ""
  excludeIngredients : String := ""
  minCalories : String := ""
  maxCalories : String := ""
  minProtein : String := ""
  maxProtein : String := ""
  minFat : String := ""
  maxFat : String := ""
  minCarbs : String := ""
  maxCarbs : String := ""
  minFiber : String := ""
  maxFiber : String := ""
  minSodium : String := ""
  maxSodium : String := ""
  minPrepTime : String := ""
  maxPrepTime : String := ""
  minCookTime : String := ""
  maxCookTime : String := ""
  minTotalTime : String := ""
  maxTotalTime : String := ""
  minServings : String := ""
  maxServings : String := ""
  minRating : String := ""
  maxRating : String := ""
  sortBy : Option String := none
  sortOrder : Option String := none
deriving DecidableEq

/-- The WHERE-clause portion of the REST `searchRecipes` handler
(src/api/index.go lines 656-843), block by block in source order. -/
def restPredicate (p : RestParams) (dietIt : List (String × FilterVal)) :
    String × List SqlArg :=
  floatFilterBlock p.maxRating " AND rating <= ?" <|
  floatFilterBlock p.minRating " AND rating >= ?" <|
  intFilterBlock p.maxServings " AND servings <= ?" <|
  intFilterBlock p.minServings " AND servings >= ?" <|
  intFilterBlock p.maxTotalTime " AND total_time_minutes <= ?" <|
  intFilterBlock p.minTotalTime " AND total_time_minutes >= ?" <|
  intFilterBlock p.maxCookTime " AND cook_time_minutes <= ?" <|
  intFilterBlock p.minCookTime " AND cook_time_minutes >= ?" <|
  intFilterBlock p.maxPrepTime " AND prep_time_minutes <= ?" <|
  intFilterBlock p.minPrepTime " AND prep_time_minutes >= ?" <|
  floatFilterBlock p.maxSodium " AND sodium <= ?" <|
  floatFilterBlock p.minSodium " AND sodium >= ?" <|
  floatFilterBlock p.maxFiber " AND fiber <= ?" <|
  floatFilterBlock p.minFiber " AND fiber >= ?" <|
  floatFilterBlock p.maxCarbs " AND carbs <= ?" <|
  floatFilterBlock p.minCarbs " AND carbs >= ?" <|
  floatFilterBlock p.maxFat " AND fat <= ?" <|
  floatFilterBlock p.minFat " AND fat >= ?" <|
  floatFilterBlock p.maxProtein " AND protein <= ?" <|
  floatFilterBlock p.minProtein " AND protein >= ?" <|
  intFilterBlock p.maxCalories " AND calories <= ?" <|
  intFilterBlock p.minCalories " AND calories >= ?" <|
  ingredientBlock " AND ingredients NOT LIKE ?" p.excludeIngredients <|
  ingredientBlock " AND ingredients LIKE ?" p.includeIngredients <|
  searchBlock p.search <|
  dietBlock p.diet dietIt (baseSelect, [])

/-- The sort-column whitelist of the REST handler
(src/api/index.go lines 849-853). -/
def validSortColumnsRest (s : String) : Bool :=
  ["id", "name", "prep_time_minutes", "cook_time_minutes", "total_time_minutes",
   "servings", "rating", "calories", "protein", "fat", "carbs", "fiber",
   "sodium"].contains s

/-- The ORDER BY clause of the REST handler (lines 855-861): emitted only
for whitelisted columns, with `DESC` exactly for the string `"desc"`. -/
def restSortClause (sb so : String) : String :=
  if validSortColumnsRest sb then
    if so = "desc" then " ORDER BY " ++ sb ++ " DESC"
    else " ORDER BY " ++ sb ++ " ASC"
  else ""

/-- The full query of the REST `searchRecipes` handler
(src/api/index.go lines 656-863), including sort clause and row cap. -/
def restQuery (p : RestParams) (dietIt : List (String × FilterVal)) :
    String × List SqlArg :=
  let qa := restPredicate p dietIt
  (qa.1 ++ restSortClause (p.sortBy.getD "id") (p.sortOrder.getD "asc") ++ " LIMIT 100",
   qa.2)

/-- A value in the RPC tool-call `arguments` map, as produced by JSON
decoding into `map[string]interface{}`: a string, a number (`float64`),
or JSON `null` (a nil interface, which every `value != nil` guard in the
source skips).  Other JSON shapes (booleans, arrays, objects) match none
of the type assertions in the source and behave exactly like `vnull`
past the nil check; they are not modeled separately. -/
inductive MCPVal where
  | vstr (s : String)
  | vnum (v : GoFloatVal)
  | vnull
deriving DecidableEq

/-- The `filters` condition table of `mcpSearchRecipes`
(src/api/index.go lines 506-517), in source-literal order.  The handler
iterates this Go map, so its real iteration order is any permutation of
this list. -/
def mcpFilterTable : List (String × String) :=
  [("search", "AND (name LIKE ? OR description LIKE ?)"),
   ("include_ingredients", "AND ingredients LIKE ?"),
   ("exclude_ingredients", "AND ingredients NOT LIKE ?"),
   ("min_calories", "AND calories >= ?"),
   ("max_calories", "AND calories <= ?"),
   ("min_protein", "AND protein >= ?"),
   ("max_protein", "AND protein <= ?"),
   ("min_carbs", "AND carbs >= ?"),
   ("max_carbs", "AND carbs <= ?"),
   ("max_prep_time", "AND prep_time_minutes <= ?")]

/-- One iteration of the `for key, condition := range filters` loop of
`mcpSearchRecipes` (src/api/index.go lines 519-548).  Note the `default`
branch mirrors the source exactly: for a nonempty string value the
fragment is appended BEFORE `strconv.ParseFloat` is consulted, so an
unparseable value leaves a `?` placeholder with no matching argument. -/
def mcpStep (args : List (String × MCPVal)) (qa : String × List SqlArg)
    (kc : String × String) : String × List SqlArg :=
  match args.lookup kc.1 with
  | none => qa
  | some .vnull => qa
  | some v =>
    if kc.1 = "search" then
      match v with
      | .vstr s =>
        if s ≠ "" then (qa.1 ++ " " ++ kc.2, qa.2 ++ [likeArg s, likeArg s]) else qa
      | _ => qa
    else if kc.1 = "include_ingredients" ∨ kc.1 = "exclude_ingredients" then
      match v with
      | .vstr s =>
        if s ≠ "" then trimIngredientLoop (" " ++ kc.2) (goSplitComma s) qa else qa
      | _ => qa
    else
      match v with
      | .vstr s =>
        if s ≠ "" then
          match goParseFloat s with
          | some x => (qa.1 ++ " " ++ kc.2, qa.2 ++ [.sfloat x])
          | none => (qa.1 ++ " " ++ kc.2, qa.2)
        else qa
      | .vnum x => (qa.1 ++ " " ++ kc.2, qa.2 ++ [.sfloat x])
      | .vnull => qa

/-- The WHERE-clause portion of `mcpSearchRecipes`
(src/api/index.go lines 495-548): diet block, then the filter-map loop.
`tableIt` is the Go iteration order of the `filters` map (a permutation
of `mcpFilterTable`); `dietIt` is the iteration order of the selected
plan's filter map. -/
def mcpPredicate (args : List (String × MCPVal)) (tableIt : List (String × String))
    (dietIt : List (String × FilterVal)) : String × List SqlArg :=
  let qa : String × List SqlArg := (baseSelect, [])
  let qa :=
    match args.lookup "diet" with
    | some (.vstr d) =>
      if d ≠ "" then
        match dietPlansLookup d with
        | some _ => applyDietFilters qa.1 qa.2 dietIt
        | none => qa
      else qa
    | _ => qa
  tableIt.foldl (mcpStep args) qa

/-- The sort-column whitelist of `mcpSearchRecipes`
(src/api/index.go lines 560-564). -/
def validSortColumnsMcp (s : String) : Bool :=
  ["id", "name", "prep_time_minutes", "cook_time_minutes", "total_time_minutes",
   "servings", "rating", "calories", "protein", "fat", "carbs", "fiber",
   "sodium"].contains s

/-- The `sortBy` variable of `mcpSearchRecipes` (lines 551-555). -/
def mcpSortBy (args : List (String × MCPVal)) : String :=
  match args.lookup "sort_by" with
  | some (.vstr v) => if v ≠ "" then v else "id"
  | _ => "id"

/-- The `sortOrder` variable of `mcpSearchRecipes` (lines 552-558). -/
def mcpSortOrder (args : List (String × MCPVal)) : String :=
  match args.lookup "sort_order" with
  | some (.vstr v) => if v ≠ "" then v else "asc"
  | _ => "asc"

/-- The ORDER BY clause of `mcpSearchRecipes` (lines 566-572). -/
def mcpSortClause (sb so : String) : String :=
  if validSortColumnsMcp sb then
    if so = "desc" then " ORDER BY " ++ sb ++ " DESC"
    else " ORDER BY " ++ sb ++ " ASC"
  else ""

/-- The full query of `mcpSearchRecipes` (src/api/index.go lines
495-574), including sort clause and the 20-row cap. -/
def mcpQuery (args : List (String × MCPVal)) (tableIt : List (String × String))
    (dietIt : List (String × FilterVal)) : String × List SqlArg :=
  let qa := mcpPredicate args tableIt dietIt
  (qa.1 ++ mcpSortClause (mcpSortBy args) (mcpSortOrder args) ++ " LIMIT 20", qa.2)

/-- The stored state of a serialized-list column (`ingredients` or
`instructions`), abstracted by its `json.Unmarshal` outcome into a nil
`[]string` destination: the empty string (Unmarshal is never called); a
nonempty string that decodes cleanly to a string list; a nonempty
string on which Unmarshal errors before touching the destination (not
valid JSON, or a non-array top level), leaving the slice nil; or a
valid JSON array containing ill-typed elements, where Unmarshal returns
an error but still allocates and partially populates the slice,
decoding each well-typed element and leaving the zero value `""` for
the ill-typed ones — the stored text `["a",5]` yields the non-nil slice
`["a",""]` alongside an error the source ignores.  `errValues l`
carries that populated slice. -/
inductive RawListField where
  | emptyStr
  | decodable (l : List String)
  | malformed
  | errValues (l : List String)
deriving DecidableEq

/-- A raw result row as populated by a successful `rows.Scan`: nullable
columns are `Option`, and the two serialized-list columns are carried as
`RawListField`. -/
structure RawRow where
  id : Int := 0
  name : String := ""
  description : String := ""
  image : String := ""
  prepTimeMinutes : Option Int := none
  cookTimeMinutes : Option Int := none
  totalTimeMinutes : Option Int := none
  servings : Option Int := none
  rating : Option GoFloatVal := none
  ingredientsRaw : RawListField := .emptyStr
  instructionsRaw : RawListField := .emptyStr
  calories : Option Int := none
  protein : Option GoFloatVal := none
  fat : Option GoFloatVal := none
  carbs : Option GoFloatVal := none
  fiber : Option GoFloatVal := none
  sodium : Option GoFloatVal := none
deriving DecidableEq

/-- The `Recipe` struct of the source.  The two list fields are
`Option (List String)`: `none` models a nil Go slice (which
`encoding/json` serializes as JSON `null`), `some l` a non-nil slice. -/
structure Recipe where
  id : Int := 0
  name : String := ""
  description : String := ""
  image : String := ""
  prepTimeMinutes : Option Int := none
  cookTimeMinutes : Option Int := none
  totalTimeMinutes : Option Int := none
  servings : Option Int := none
  rating : Option GoFloatVal := none
  ingredients : Option (List String) := none
  instructions : Option (List String) := none
  calories : Option Int := none
  protein : Option GoFloatVal := none
  fat : Option GoFloatVal := none
  carbs : Option GoFloatVal := none
  fiber : Option GoFloatVal := none
  sodium : Option GoFloatVal := none
deriving DecidableEq

/-- The per-field hydration in the row loops (e.g. src/api/index.go
lines 886-892): `json.Unmarshal` is called only on a nonempty stored
string and its return value is discarded, so the field ends up as
whatever Unmarshal left in the destination: nil when the stored string
is empty or fails before any element is decoded, and the (possibly
partially zero-valued) populated slice when a valid array carries
ill-typed elements. -/
def hydrateListField : RawListField → Option (List String)
  | .emptyStr => none
  | .decodable l => some l
  | .malformed => none
  | .errValues l => some l

/-- Hydration of one successfully scanned row into a `Recipe`. -/
def hydrateRow (r : RawRow) : Recipe :=
  { id := r.id, name := r.name, description := r.description, image := r.image,
    prepTimeMinutes := r.prepTimeMinutes, cookTimeMinutes := r.cookTimeMinutes,
    totalTimeMinutes := r.totalTimeMinutes, servings := r.servings,
    rating := r.rating,
    ingredients := hydrateListField r.ingredientsRaw,
    instructions := hydrateListField r.instructionsRaw,
    calories := r.calories, protein := r.protein, fat := r.fat,
    carbs := r.carbs, fiber := r.fiber, sodium := r.sodium }

/-- Outcome of `rows.Scan` for one row of the result set: success with
the scanned values, or an error, in which case `dest` is whatever the
destination variables hold afterwards (zero values, possibly with a
prefix of columns already converted). -/
inductive ScanResult where
  | ok (r : RawRow)
  | scanError (dest : RawRow)
deriving DecidableEq

/-- The row loop of the REST `searchRecipes` handler (src/api/index.go
lines 872-895) and of `mcpSearchRecipes` (lines 582-605): a row whose
`Scan` returns an error is skipped with `continue`; every other row is
hydrated and appended. -/
def processScanRest : List ScanResult → List Recipe
  | [] => []
  | .ok r :: rest => hydrateRow r :: processScanRest rest
  | .scanError _ :: rest => processScanRest rest

/-- The row loop of `searchRecipesMCP` (src/unnamed/part_000 lines
2184-2198): the return value of `rows.Scan` is ignored, so the row is
hydrated from whatever the destinations hold and appended even when the
scan failed. -/
def processScanMCPpart0 : List ScanResult → List Recipe
  | [] => []
  | .ok r :: rest => hydrateRow r :: processScanMCPpart0 rest
  | .scanError d :: rest => hydrateRow d :: processScanMCPpart0 rest

/-- Go `encoding/json` marshalling of a `[]string` value: a nil slice
serializes as `null`, a non-nil slice as a JSON array (string escaping
is immaterial here and omitted). -/
def goMarshalStringList : Option (List String) → String
  | none => "null"
  | some l => "[" ++ String.intercalate "," (l.map (fun s => "\"" ++ s ++ "\"")) ++ "]"

/-- Concatenation of a list of strings. -/
def strConcat : List String → String
  | [] => ""
  | s :: rest => s ++ strConcat rest

/-- `n` copies of a fragment, concatenated. -/
def strRepeat (c : String) (n : Nat) : String := strConcat (List.replicate n c)

/-- Whether the character list `n` is an initial segment of `l`. -/
def listPrefixEq : List Char → List Char → Bool
  | [], _ => true
  | _ :: _, [] => false
  | a :: as, b :: bs => a = b && listPrefixEq as bs

/-- Whether `n` occurs as a contiguous substring of `h`. -/
def strContains (h n : String) : Bool :=
  (List.range (h.length + 1)).any (fun i => listPrefixEq n.data (h.data.drop i))

/-- Number of `?` placeholders in a query string. -/
def placeholderCount (s : String) : Nat := s.data.countP (· = '?')

/-- Fragment list and argument list contributed by one entry of a diet
plan's filter map under `dietStep`. -/
def dietStepContrib (kv : String × FilterVal) : List String × List SqlArg :=
  if kv.1 = "max_carbs" then
    match kv.2 with | .fint n => ([" AND carbs <= ?"], [.sint n]) | _ => ([], [])
  else if kv.1 = "min_carbs" then
    match kv.2 with | .fint n => ([" AND carbs >= ?"], [.sint n]) | _ => ([], [])
  else if kv.1 = "max_calories" then
    match kv.2 with | .fint n => ([" AND calories <= ?"], [.sint n]) | _ => ([], [])
  else if kv.1 = "min_calories" then
    match kv.2 with | .fint n => ([" AND calories >= ?"], [.sint n]) | _ => ([], [])
  else if kv.1 = "max_protein" then
    match kv.2 with | .fint n => ([" AND protein <= ?"], [.sint n]) | _ => ([], [])
  else if kv.1 = "min_protein" then
    match kv.2 with | .fint n => ([" AND protein >= ?"], [.sint n]) | _ => ([], [])
  else if kv.1 = "max_fat" then
    match kv.2 with | .fint n => ([" AND fat <= ?"], [.sint n]) | _ => ([], [])
  else if kv.1 = "min_fat" then
    match kv.2 with | .fint n => ([" AND fat >= ?"], [.sint n]) | _ => ([], [])
  else if kv.1 = "max_fiber" then
    match kv.2 with | .fint n => ([" AND fiber <= ?"], [.sint n]) | _ => ([], [])
  else if kv.1 = "min_fiber" then
    match kv.2 with | .fint n => ([" AND fiber >= ?"], [.sint n]) | _ => ([], [])
  else if kv.1 = "max_sodium" then
    match kv.2 with | .fint n => ([" AND sodium <= ?"], [.sint n]) | _ => ([], [])
  else if kv.1 = "min_sodium" then
    match kv.2 with | .fint n => ([" AND sodium >= ?"], [.sint n]) | _ => ([], [])
  else if kv.1 = "exclude_ingredients" then
    match kv.2 with
    | .flist l => (l.map (fun _ => " AND ingredients NOT LIKE ?"), l.map likeArg)
    | _ => ([], [])
  else if kv.1 = "include_ingredients" then
    match kv.2 with
    | .flist l => (l.map (fun _ => " AND ingredients LIKE ?"), l.map likeArg)
    | _ => ([], [])
  else ([], [])

/-- The fragments contributed by an iteration order of a diet plan's
filter map. -/
def dietFrags (it : List (String × FilterVal)) : List String :=
  it.flatMap (fun kv => (dietStepContrib kv).1)

/-- The arguments contributed by an iteration order of a diet plan's
filter map. -/
def dietArgs (it : List (String × FilterVal)) : List SqlArg :=
  it.flatMap (fun kv => (dietStepContrib kv).2)

/-- Whether a text-search parameter triggers its fragment. -/
def searchGate (s : String) : Bool := s != ""

/-- Whether an integer-parsed numeric parameter triggers its fragment
(`goAtoi "" = none`, so the source's emptiness guard is absorbed). -/
def intGate (v : String) : Bool := (goAtoi v).isSome

/-- Whether a float-parsed numeric parameter triggers its fragment. -/
def floatGate (v : String) : Bool := (goParseFloat v).isSome

/-- Number of comma-separated tokens an ingredient parameter produces. -/
def tokCount (s : String) : Nat := if s = "" then 0 else (goSplitComma s).length

/-- Arguments contributed by an integer-parsed numeric parameter. -/
def intArgs (v : String) : List SqlArg :=
  match goAtoi v with
  | some n => [.sint n]
  | none => []

/-- Arguments contributed by a float-parsed numeric parameter. -/
def floatArgs (v : String) : List SqlArg :=
  match goParseFloat v with
  | some x => [.sfloat x]
  | none => []

/-- Arguments contributed by an ingredient parameter. -/
def tokArgs (s : String) : List SqlArg :=
  if s = "" then [] else (goSplitComma s).map (fun t => likeArg (goTrimSpace t))

/-- The text contributed by the diet block. -/
def dietBlockText (d : String) (it : List (String × FilterVal)) : String :=
  if d = "" then ""
  else
    match dietPlansLookup d with
    | some _ => strConcat (dietFrags it)
    | none => ""

/-- The arguments contributed by the diet block. -/
def dietBlockArgs (d : String) (it : List (String × FilterVal)) : List SqlArg :=
  if d = "" then []
  else
    match dietPlansLookup d with
    | some _ => dietArgs it
    | none => []

/-- The WHERE-clause text of the REST handler as a function of the
parameters' shape only: fixed literal fragments gated by parse success,
token counts, and the diet lookup — never by the parameter values
themselves. -/
def restPredicateText (p : RestParams) (it : List (String × FilterVal)) : String :=
  baseSelect ++ dietBlockText p.diet it ++
  (if searchGate p.search then " AND (name LIKE ? OR description LIKE ?)" else "") ++
  strRepeat " AND ingredients LIKE ?" (tokCount p.includeIngredients) ++
  strRepeat " AND ingredients NOT LIKE ?" (tokCount p.excludeIngredients) ++
  (if intGate p.minCalories then " AND calories >= ?" else "") ++
  (if intGate p.maxCalories then " AND calories <= ?" else "") ++
  (if floatGate p.minProtein then " AND protein >= ?" else "") ++
  (if floatGate p.maxProtein then " AND protein <= ?" else "") ++
  (if floatGate p.minFat then " AND fat >= ?" else "") ++
  (if floatGate p.maxFat then " AND fat <= ?" else "") ++
  (if floatGate p.minCarbs then " AND carbs >= ?" else "") ++
  (if floatGate p.maxCarbs then " AND carbs <= ?" else "") ++
  (if floatGate p.minFiber then " AND fiber >= ?" else "") ++
  (if floatGate p.maxFiber then " AND fiber <= ?" else "") ++
  (if floatGate p.minSodium then " AND sodium >= ?" else "") ++
  (if floatGate p.maxSodium then " AND sodium <= ?" else "") ++
  (if intGate p.minPrepTime then " AND prep_time_minutes >= ?" else "") ++
  (if intGate p.maxPrepTime then " AND prep_time_minutes <= ?" else "") ++
  (if intGate p.minCookTime then " AND cook_time_minutes >= ?" else "") ++
  (if intGate p.maxCookTime then " AND cook_time_minutes <= ?" else "") ++
  (if intGate p.minTotalTime then " AND total_time_minutes >= ?" else "") ++
  (if intGate p.maxTotalTime then " AND total_time_minutes <= ?" else "") ++
  (if intGate p.minServings then " AND servings >= ?" else "") ++
  (if intGate p.maxServings then " AND servings <= ?" else "") ++
  (if floatGate p.minRating then " AND rating >= ?" else "") ++
  (if floatGate p.maxRating then " AND rating <= ?" else "")

/-- The argument list of the REST handler's WHERE clause: this is where
the caller-supplied values live. -/
def restPredicateArgs (p : RestParams) (it : List (String × FilterVal)) : List SqlArg :=
  dietBlockArgs p.diet it ++
  (if searchGate p.search then [likeArg p.search, likeArg p.search] else []) ++
  tokArgs p.includeIngredients ++
  tokArgs p.excludeIngredients ++
  intArgs p.minCalories ++ intArgs p.maxCalories ++
  floatArgs p.minProtein ++ floatArgs p.maxProtein ++
  floatArgs p.minFat ++ floatArgs p.maxFat ++
  floatArgs p.minCarbs ++ floatArgs p.maxCarbs ++
  floatArgs p.minFiber ++ floatArgs p.maxFiber ++
  floatArgs p.minSodium ++ floatArgs p.maxSodium ++
  intArgs p.minPrepTime ++ intArgs p.maxPrepTime ++
  intArgs p.minCookTime ++ intArgs p.maxCookTime ++
  intArgs p.minTotalTime ++ intArgs p.maxTotalTime ++
  intArgs p.minServings ++ intArgs p.maxServings ++
  floatArgs p.minRating ++ floatArgs p.maxRating

/-- Two REST parameter sets with the same shape: same diet and sort
parameters, and for every caller value slot the same gate outcome (text
search present, same ingredient token counts, same numeric parse
success).  The values themselves are unconstrained. -/
def SameShape (p q : RestParams) : Prop :=
  p.diet = q.diet ∧
  searchGate p.search = searchGate q.search ∧
  tokCount p.includeIngredients = tokCount q.includeIngredients ∧
  tokCount p.excludeIngredients = tokCount q.excludeIngredients ∧
  intGate p.minCalories = intGate q.minCalories ∧
  intGate p.maxCalories = intGate q.maxCalories ∧
  floatGate p.minProtein = floatGate q.minProtein ∧
  floatGate p.maxProtein = floatGate q.maxProtein ∧
  floatGate p.minFat = floatGate q.minFat ∧
  floatGate p.maxFat = floatGate q.maxFat ∧
  floatGate p.minCarbs = floatGate q.minCarbs ∧
  floatGate p.maxCarbs = floatGate q.maxCarbs ∧
  floatGate p.minFiber = floatGate q.minFiber ∧
  floatGate p.maxFiber = floatGate q.maxFiber ∧
  floatGate p.minSodium = floatGate q.minSodium ∧
  floatGate p.maxSodium = floatGate q.maxSodium ∧
  intGate p.minPrepTime = intGate q.minPrepTime ∧
  intGate p.maxPrepTime = intGate q.maxPrepTime ∧
  intGate p.minCookTime = intGate q.minCookTime ∧
  intGate p.maxCookTime = intGate q.maxCookTime ∧
  intGate p.minTotalTime = intGate q.minTotalTime ∧
  intGate p.maxTotalTime = intGate q.maxTotalTime ∧
  intGate p.minServings = intGate q.minServings ∧
  intGate p.maxServings = intGate q.maxServings ∧
  floatGate p.minRating = floatGate q.minRating ∧
  floatGate p.maxRating = floatGate q.maxRating ∧
  p.sortBy = q.sortBy ∧ p.sortOrder = q.sortOrder

/-- Boolean form of `SameShape`, used to decide it efficiently. -/
def sameShapeB (p q : RestParams) : Bool :=
  p.diet == q.diet &&
  searchGate p.search == searchGate q.search &&
  tokCount p.includeIngredients == tokCount q.includeIngredients &&
  tokCount p.excludeIngredients == tokCount q.excludeIngredients &&
  intGate p.minCalories == intGate q.minCalories &&
  intGate p.maxCalories == intGate q.maxCalories &&
  floatGate p.minProtein == floatGate q.minProtein &&
  floatGate p.maxProtein == floatGate q.maxProtein &&
  floatGate p.minFat == floatGate q.minFat &&
  floatGate p.maxFat == floatGate q.maxFat &&
  floatGate p.minCarbs == floatGate q.minCarbs &&
  floatGate p.maxCarbs == floatGate q.maxCarbs &&
  floatGate p.minFiber == floatGate q.minFiber &&
  floatGate p.maxFiber == floatGate q.maxFiber &&
  floatGate p.minSodium == floatGate q.minSodium &&
  floatGate p.maxSodium == floatGate q.maxSodium &&
  intGate p.minPrepTime == intGate q.minPrepTime &&
  intGate p.maxPrepTime == intGate q.maxPrepTime &&
  intGate p.minCookTime == intGate q.minCookTime &&
  intGate p.maxCookTime == intGate q.maxCookTime &&
  intGate p.minTotalTime == intGate q.minTotalTime &&
  intGate p.maxTotalTime == intGate q.maxTotalTime &&
  intGate p.minServings == intGate q.minServings &&
  intGate p.maxServings == intGate q.maxServings &&
  floatGate p.minRating == floatGate q.minRating &&
  floatGate p.maxRating == floatGate q.maxRating &&
  p.sortBy == q.sortBy && p.sortOrder == q.sortOrder

instance (p q : RestParams) : Decidable (SameShape p q) :=
  decidable_of_iff (sameShapeB p q = true)
    (by simp [sameShapeB, SameShape, Bool.and_eq_true, beq_iff_eq, and_assoc])

/-- The keto filter map in a different (equally legitimate) Go map
iteration order: the two range entries swapped. -/
def ketoFiltersSwapped : List (String × FilterVal) :=
  [("min_fat", .fint 15), ("max_carbs", .fint 20),
   ("sort_by", .fstr "fat"), ("sort_order", .fstr "desc")]

/-- The REST request of the C4 scenario: diet `vegan`, one included
ingredient `tofu`, everything else unset. -/
def veganTofuParams : RestParams := { diet := "vegan", includeIngredients := "tofu" }

/-- The argument list the vegan exclusions contribute. -/
def veganExclusionArgs : List SqlArg :=
  ["meat", "chicken", "beef", "pork", "fish", "dairy", "milk", "cheese", "egg",
   "butter"].map likeArg

/-- Every argument key the `mcpSearchRecipes` handler ever reads. -/
def mcpKnownKeys : List String :=
  ["diet", "search", "include_ingredients", "exclude_ingredients",
   "min_calories", "max_calories", "min_protein", "max_protein", "min_carbs",
   "max_carbs", "max_prep_time", "sort_by", "sort_order"]

theorem trimIngredientLoop_eq (cond : String) (l : List String) (qa : String × List SqlArg) :
    trimIngredientLoop cond l qa =
      (qa.1 ++ strConcat (l.map (fun _ => cond)),
       qa.2 ++ l.map (fun t => likeArg (goTrimSpace t))) := by
  induction l generalizing qa with
  | nil => simp [trimIngredientLoop, strConcat]
  | cons t ts ih =>
    have h1 : trimIngredientLoop cond (t :: ts) qa =
        trimIngredientLoop cond ts (qa.1 ++ cond, qa.2 ++ [likeArg (goTrimSpace t)]) := rfl
    rw [h1, ih]
    simp [strConcat, String.append_assoc]

theorem dietIngredientLoop_eq (cond : String) (l : List String) (qa : String × List SqlArg) :
    dietIngredientLoop cond l qa =
      (qa.1 ++ strConcat (l.map (fun _ => cond)), qa.2 ++ l.map likeArg) := by
  induction l generalizing qa with
  | nil => simp [dietIngredientLoop, strConcat]
  | cons t ts ih =>
    have h1 : dietIngredientLoop cond (t :: ts) qa =
        dietIngredientLoop cond ts (qa.1 ++ cond, qa.2 ++ [likeArg t]) := rfl
    rw [h1, ih]
    simp [strConcat, String.append_assoc]

set_option maxHeartbeats 1000000 in
theorem dietStep_eq (qa : String × List SqlArg) (kv : String × FilterVal) :
    dietStep qa kv =
      (qa.1 ++ strConcat (dietStepContrib kv).1, qa.2 ++ (dietStepContrib kv).2) := by
  obtain ⟨k, v⟩ := kv
  by_cases h1 : k = "max_carbs"
  · subst h1; cases v <;> simp [dietStep, dietStepContrib, strConcat]
  by_cases h2 : k = "min_carbs"
  · subst h2; cases v <;> simp [dietStep, dietStepContrib, strConcat]
  by_cases h3 : k = "max_calories"
  · subst h3; cases v <;> simp [dietStep, dietStepContrib, strConcat]
  by_cases h4 : k = "min_calories"
  · subst h4; cases v <;> simp [dietStep, dietStepContrib, strConcat]
  by_cases h5 : k = "max_protein"
  · subst h5; cases v <;> simp [dietStep, dietStepContrib, strConcat]
  by_cases h6 : k = "min_protein"
  · subst h6; cases v <;> simp [dietStep, dietStepContrib, strConcat]
  by_cases h7 : k = "max_fat"
  · subst h7; cases v <;> simp [dietStep, dietStepContrib, strConcat]
  by_cases h8 : k = "min_fat"
  · subst h8; cases v <;> simp [dietStep, dietStepContrib, strConcat]
  by_cases h9 : k = "max_fiber"
  · subst h9; cases v <;> simp [dietStep, dietStepContrib, strConcat]
  by_cases h10 : k = "min_fiber"
  · subst h10; cases v <;> simp [dietStep, dietStepContrib, strConcat]
  by_cases h11 : k = "max_sodium"
  · subst h11; cases v <;> simp [dietStep, dietStepContrib, strConcat]
  by_cases h12 : k = "min_sodium"
  · subst h12; cases v <;> simp [dietStep, dietStepContrib, strConcat]
  by_cases h13 : k = "exclude_ingredients"
  · subst h13
    cases v <;> simp [dietStep, dietStepContrib, strConcat, dietIngredientLoop_eq]
  by_cases h14 : k = "include_ingredients"
  · subst h14
    cases v <;> simp [dietStep, dietStepContrib, strConcat, dietIngredientLoop_eq]
  simp [dietStep, dietStepContrib, strConcat, h1, h2, h3, h4, h5, h6, h7, h8, h9,
    h10, h11, h12, h13, h14]

theorem strConcat_append (l1 l2 : List String) :
    strConcat (l1 ++ l2) = strConcat l1 ++ strConcat l2 := by
  induction l1 with
  | nil => simp [strConcat]
  | cons s rest ih => simp [strConcat, ih, String.append_assoc]

theorem applyDietFilters_eq (q : String) (args : List SqlArg)
    (it : List (String × FilterVal)) :
    applyDietFilters q args it = (q ++ strConcat (dietFrags it), args ++ dietArgs it) := by
  induction it generalizing q args with
  | nil => simp [applyDietFilters, dietFrags, dietArgs, strConcat]
  | cons kv rest ih =>
    have h1 : applyDietFilters q args (kv :: rest) =
        applyDietFilters (dietStep (q, args) kv).1 (dietStep (q, args) kv).2 rest := rfl
    rw [h1, ih, dietStep_eq]
    simp [dietFrags, dietArgs, strConcat_append, String.append_assoc]

theorem searchBlock_eq (s : String) (qa : String × List SqlArg) :
    searchBlock s qa =
      (qa.1 ++ (if searchGate s then " AND (name LIKE ? OR description LIKE ?)" else ""),
       qa.2 ++ (if searchGate s then [likeArg s, likeArg s] else [])) := by
  by_cases h : s = "" <;> simp [searchBlock, searchGate, h]

theorem ingredientBlock_eq (cond s : String) (qa : String × List SqlArg) :
    ingredientBlock cond s qa =
      (qa.1 ++ strRepeat cond (tokCount s), qa.2 ++ tokArgs s) := by
  by_cases h : s = "" <;>
    simp [ingredientBlock, tokCount, tokArgs, strRepeat, strConcat, h,
      trimIngredientLoop_eq, List.map_const']

theorem intFilterBlock_eq (v frag : String) (qa : String × List SqlArg) :
    intFilterBlock v frag qa =
      (qa.1 ++ (if intGate v then frag else ""), qa.2 ++ intArgs v) := by
  by_cases h : v = ""
  · subst h
    have hg : goAtoi "" = none := rfl
    simp [intFilterBlock, intGate, intArgs, hg]
  · cases hg : goAtoi v <;> simp [intFilterBlock, intGate, intArgs, h, hg]

theorem floatFilterBlock_eq (v frag : String) (qa : String × List SqlArg) :
    floatFilterBlock v frag qa =
      (qa.1 ++ (if floatGate v then frag else ""), qa.2 ++ floatArgs v) := by
  by_cases h : v = ""
  · subst h
    have hg : goParseFloat "" = none := by decide
    simp [floatFilterBlock, floatGate, floatArgs, hg]
  · cases hg : goParseFloat v <;> simp [floatFilterBlock, floatGate, floatArgs, h, hg]

theorem dietBlock_eq (d : String) (it : List (String × FilterVal))
    (qa : String × List SqlArg) :
    dietBlock d it qa = (qa.1 ++ dietBlockText d it, qa.2 ++ dietBlockArgs d it) := by
  by_cases h : d = ""
  · simp [dietBlock, dietBlockText, dietBlockArgs, h]
  · cases hl : dietPlansLookup d <;>
      simp [dietBlock, dietBlockText, dietBlockArgs, h, hl, applyDietFilters_eq]

theorem restPredicate_eq (p : RestParams) (it : List (String × FilterVal)) :
    restPredicate p it = (restPredicateText p it, restPredicateArgs p it) := by
  simp only [restPredicate, dietBlock_eq, searchBlock_eq, ingredientBlock_eq,
    intFilterBlock_eq, floatFilterBlock_eq]
  unfold restPredicateText restPredicateArgs
  constructor

theorem restQuery_eq (p : RestParams) (it : List (String × FilterVal)) :
    restQuery p it =
      (restPredicateText p it ++
        restSortClause (p.sortBy.getD "id") (p.sortOrder.getD "asc") ++ " LIMIT 100",
       restPredicateArgs p it) := by
  simp only [restQuery, restPredicate_eq]

theorem searchGate_empty : searchGate "" = false := rfl

theorem intGate_empty : intGate "" = false := rfl

theorem floatGate_empty : floatGate "" = false := by decide

theorem tokCount_empty : tokCount "" = 0 := rfl

theorem tokArgs_empty : tokArgs "" = [] := rfl

theorem intArgs_empty : intArgs "" = [] := rfl

theorem floatArgs_empty : floatArgs "" = [] := by decide

theorem dietBlockText_empty (it : List (String × FilterVal)) : dietBlockText "" it = "" := rfl

theorem dietBlockArgs_empty (it : List (String × FilterVal)) : dietBlockArgs "" it = [] := rfl

theorem strRepeat_zero (c : String) : strRepeat c 0 = "" := rfl

theorem strConcat_nil : strConcat [] = "" := rfl

set_option maxRecDepth 40000 in
/-- C3: on the REST surface an unparseable numeric filter value is
silently ignored (no fragment, no argument, query still well-formed),
but on the RPC tool-call surface (`mcpSearchRecipes`,
src/api/index.go lines 536-541) the fragment is appended before
`strconv.ParseFloat` is consulted, so `min_calories = "abc"` leaves a
`?` placeholder with an empty argument list: the query has one
placeholder and zero arguments, and `db.Query` fails instead of
succeeding with the filter dropped. -/
theorem c3_mcp_unparseable_numeric_fragment_without_arg :
    restPredicate { minCalories := "abc" } [] = (baseSelect, []) ∧
    mcpPredicate [("min_calories", .vstr "abc")] mcpFilterTable [] =
      (baseSelect ++ " AND calories >= ?", []) ∧
    placeholderCount
      (mcpPredicate [("min_calories", .vstr "abc")] mcpFilterTable []).1 = 1 ∧
    (mcpPredicate [("min_calories", .vstr "abc")] mcpFilterTable []).2.length = 0 := by
  have hpf : goParseFloat "abc" = none := by decide
  have hmcp : mcpPredicate [("min_calories", .vstr "abc")] mcpFilterTable [] =
      (baseSelect ++ " AND calories >= ?", []) := by
    simp [mcpPredicate, mcpStep, mcpFilterTable, List.lookup, hpf]
    decide
  refine ⟨?_, hmcp, ?_, ?_⟩
  · rw [restPredicate_eq]; constructor
  · rw [hmcp]; decide
  · rw [hmcp]; rfl

set_option maxRecDepth 40000 in
/-- C5 counterexample: hydrating a row whose stored ingredients field is
the empty string leaves the `Ingredients` slice nil (`none` in the
model), which `encoding/json` serializes as JSON `null` — not as the
empty list the claim requires. -/
theorem c5_counterexample_empty_field_is_null :
    (hydrateRow { ingredientsRaw := .emptyStr }).ingredients ≠ some [] ∧
    goMarshalStringList (hydrateRow { ingredientsRaw := .emptyStr }).ingredients =
      "null" := by
  constructor
  · decide
  · rfl

theorem goMarshal_some_ne_null (l : List String) :
    goMarshalStringList (some l) ≠ "null" := by
  unfold goMarshalStringList
  intro h
  have h2 := congrArg String.data h
  simp [String.data_append] at h2

/-- C5 (amended): hydration is a pure function of the raw row (so
hydrating the same row twice is definitionally equal), a successfully
scanned row is always returned, and decode is lenient — no decode
outcome ever errors or drops the row — but the resulting field is not
the empty list the claim states: an empty stored value, or an Unmarshal
failure that never touches the destination, leaves the field a nil
slice (JSON `null`, length zero), while a decode error inside a valid
array leaves the partially populated non-nil slice Unmarshal wrote
(ill-typed elements as zero-value `""`), marshaled as an array, with
the error silently discarded. -/
theorem c5_hydration_deterministic_lenient :
    ∀ r : RawRow,
      processScanRest [.ok r] = [hydrateRow r] ∧
      (r.ingredientsRaw = .emptyStr ∨ r.ingredientsRaw = .malformed →
        (hydrateRow r).ingredients = none ∧
        goMarshalStringList (hydrateRow r).ingredients = "null") ∧
      (∀ l, r.ingredientsRaw = .decodable l → (hydrateRow r).ingredients = some l) ∧
      (∀ l, r.ingredientsRaw = .errValues l →
        (hydrateRow r).ingredients = some l ∧
        goMarshalStringList (hydrateRow r).ingredients ≠ "null") ∧
      (r.instructionsRaw = .emptyStr ∨ r.instructionsRaw = .malformed →
        (hydrateRow r).instructions = none ∧
        goMarshalStringList (hydrateRow r).instructions = "null") ∧
      (∀ l, r.instructionsRaw = .decodable l → (hydrateRow r).instructions = some l) ∧
      (∀ l, r.instructionsRaw = .errValues l →
        (hydrateRow r).instructions = some l ∧
        goMarshalStringList (hydrateRow r).instructions ≠ "null") := by
  intro r
  refine ⟨rfl, ?_, ?_, ?_, ?_, ?_, ?_⟩
  · rintro (h | h) <;> simp [hydrateRow, hydrateListField, h, goMarshalStringList]
  · intro l h; simp [hydrateRow, hydrateListField, h]
  · intro l h
    refine ⟨by simp [hydrateRow, hydrateListField, h], ?_⟩
    simp only [hydrateRow, hydrateListField, h]
    exact goMarshal_some_ne_null l
  · rintro (h | h) <;> simp [hydrateRow, hydrateListField, h, goMarshalStringList]
  · intro l h; simp [hydrateRow, hydrateListField, h]
  · intro l h
    refine ⟨by simp [hydrateRow, hydrateListField, h], ?_⟩
    simp only [hydrateRow, hydrateListField, h]
    exact goMarshal_some_ne_null l

/-- C5 witness: the amended hydration theorem applied to a concrete row
whose stored ingredients text is a valid array with one ill-typed
element (Unmarshal leaves `["a", ""]` and an ignored error) and whose
stored instructions text is empty. -/
theorem c5_hydration_witness :
    processScanRest [.ok { ingredientsRaw := .errValues ["a", ""],
                           instructionsRaw := .emptyStr }] =
      [hydrateRow { ingredientsRaw := .errValues ["a", ""],
                    instructionsRaw := .emptyStr }] ∧
    (hydrateRow { ingredientsRaw := .errValues ["a", ""],
                  instructionsRaw := .emptyStr }).ingredients = some ["a", ""] ∧
    goMarshalStringList
      (hydrateRow { ingredientsRaw := .errValues ["a", ""],
                    instructionsRaw := .emptyStr }).ingredients ≠ "null" ∧
    (hydrateRow { ingredientsRaw := .errValues ["a", ""],
                  instructionsRaw := .emptyStr }).instructions = none :=
  ⟨(c5_hydration_deterministic_lenient _).1,
   ((c5_hydration_deterministic_lenient _).2.2.2.1 ["a", ""] rfl).1,
   ((c5_hydration_deterministic_lenient _).2.2.2.1 ["a", ""] rfl).2,
   ((c5_hydration_deterministic_lenient _).2.2.2.2.1 (Or.inl rfl)).1⟩

/-- C8: in the REST row loop a scan error skips exactly that row, but in
`searchRecipesMCP` (src/unnamed/part_000 lines 2184-2198) the value
returned by `rows.Scan` is ignored, so the errored row is hydrated from
the leftover destination values and appended: the result set on that
surface includes the bad row instead of skipping it. -/
theorem c8_scan_error_row_included_on_mcp_part0 :
    processScanRest [.scanError {}, .ok { id := 7 }] = [hydrateRow { id := 7 }] ∧
    processScanMCPpart0 [.scanError {}, .ok { id := 7 }] =
      [hydrateRow {}, hydrateRow { id := 7 }] ∧
    (processScanMCPpart0 [.scanError {}]).length = 1 ∧
    processScanRest [.scanError {}] = [] :=
  ⟨rfl, rfl, rfl, rfl⟩

set_option maxRecDepth 40000 in
/-- C9 counterexample: a trailing comma in `include_ingredients` yields a
second `ingredients LIKE ?` fragment with argument `%%` — the empty
token is not skipped as the claim states. -/
theorem c9_counterexample_empty_token_not_skipped :
    restPredicate { includeIngredients := "tofu," } [] =
      (baseSelect ++ " AND ingredients LIKE ?" ++ " AND ingredients LIKE ?",
       [likeArg "tofu", likeArg ""]) ∧
    ([likeArg "tofu", likeArg ""] : List SqlArg) ≠ [likeArg "tofu"] := by
  constructor
  · rw [restPredicate_eq]; constructor
  · decide

/-- C9 (amended): every comma-separated ingredient token is trimmed of
surrounding whitespace before wildcard wrapping, but an empty token is
NOT skipped: each token of the split, empty or not, contributes exactly
one LIKE / NOT LIKE fragment and one `%trimmed%` argument, on the REST
surface and on the RPC surface alike. -/
theorem c9_tokens_trimmed_but_empty_not_skipped :
    ∀ s : String, s ≠ "" →
      restPredicate { includeIngredients := s } [] =
        (baseSelect ++ strRepeat " AND ingredients LIKE ?" (goSplitComma s).length,
         (goSplitComma s).map (fun t => likeArg (goTrimSpace t))) ∧
      restPredicate { excludeIngredients := s } [] =
        (baseSelect ++ strRepeat " AND ingredients NOT LIKE ?" (goSplitComma s).length,
         (goSplitComma s).map (fun t => likeArg (goTrimSpace t))) ∧
      mcpPredicate [("include_ingredients", .vstr s)] mcpFilterTable [] =
        (baseSelect ++ strRepeat " AND ingredients LIKE ?" (goSplitComma s).length,
         (goSplitComma s).map (fun t => likeArg (goTrimSpace t))) := by
  intro s h
  refine ⟨?_, ?_, ?_⟩
  · rw [restPredicate_eq]
    unfold restPredicateText restPredicateArgs
    simp [searchGate_empty, intGate_empty, floatGate_empty, tokCount_empty,
      tokArgs_empty, intArgs_empty, floatArgs_empty, dietBlockText_empty,
      dietBlockArgs_empty, strRepeat_zero, tokCount, tokArgs, h]
  · rw [restPredicate_eq]
    unfold restPredicateText restPredicateArgs
    simp [searchGate_empty, intGate_empty, floatGate_empty, tokCount_empty,
      tokArgs_empty, intArgs_empty, floatArgs_empty, dietBlockText_empty,
      dietBlockArgs_empty, strRepeat_zero, tokCount, tokArgs, h]
  · simp only [mcpPredicate, mcpStep, mcpFilterTable, List.lookup, List.foldl]
    simp [h, trimIngredientLoop_eq,
      show (" " ++ "AND ingredients LIKE ?" : String) = " AND ingredients LIKE ?"
        from rfl,
      strRepeat, List.map_const']

/-- C9 witness: the amended theorem at `" , tofu "`, whose two tokens
trim to `""` and `"tofu"`. -/
theorem c9_tokens_witness :
    restPredicate { includeIngredients := " , tofu " } [] =
      (baseSelect ++
         strRepeat " AND ingredients LIKE ?" (goSplitComma " , tofu ").length,
       (goSplitComma " , tofu ").map (fun t => likeArg (goTrimSpace t))) :=
  (c9_tokens_trimmed_but_empty_not_skipped " , tofu " (by decide)).1

set_option maxRecDepth 40000 in
/-- C7 counterexample: two legitimate iteration orders of the keto
plan's filter map (Go randomizes map iteration, so both occur across
runs) produce different query strings for the same request. -/
theorem c7_counterexample_map_order_changes_query :
    ketoFiltersSwapped.Perm ketoFilters ∧
    (restQuery { diet := "keto" } ketoFilters).1 ≠
      (restQuery { diet := "keto" } ketoFiltersSwapped).1 := by
  constructor
  · decide
  · rw [restQuery_eq, restQuery_eq]
    intro hcontra
    have h1 : restPredicateText { diet := "keto" } ketoFilters ++ " ORDER BY id ASC" ++
        " LIMIT 100" = restPredicateText { diet := "keto" } ketoFiltersSwapped ++
        " ORDER BY id ASC" ++ " LIMIT 100" := hcontra
    revert h1
    decide

/-- C7 (amended): for a fixed map iteration order the query builder is a
pure function of the request, and the multiset of range fragments and
arguments is determined by the filter map alone; but the fragments are
emitted in map-iteration order, which Go does not fix, so the query
STRING is not unique (see the counterexample). -/
theorem c7_order_invariant_fragment_multiset :
    (∀ (o1 o2 : List (String × FilterVal)), o1.Perm o2 →
        (dietFrags o1).Perm (dietFrags o2) ∧ (dietArgs o1).Perm (dietArgs o2)) ∧
    (∀ (q : String) (a : List SqlArg) (it : List (String × FilterVal)),
        applyDietFilters q a it = (q ++ strConcat (dietFrags it), a ++ dietArgs it)) :=
  ⟨fun _ _ h => ⟨h.flatMap_right _, h.flatMap_right _⟩, applyDietFilters_eq⟩

/-- C7 witness: the multiset invariance applied to the two keto
iteration orders of the counterexample. -/
theorem c7_order_invariance_witness :
    (dietFrags ketoFiltersSwapped).Perm (dietFrags ketoFilters) ∧
    applyDietFilters baseSelect [] ketoFilters =
      (baseSelect ++ strConcat (dietFrags ketoFilters), dietArgs ketoFilters) :=
  ⟨(c7_order_invariant_fragment_multiset.1 ketoFiltersSwapped ketoFilters
      (by decide)).1,
   by rw [c7_order_invariant_fragment_multiset.2 baseSelect [] ketoFilters]; simp⟩

theorem strRepeat_one (c : String) : strRepeat c 1 = c := by
  simp [strRepeat, strConcat]

set_option maxRecDepth 40000 in
theorem restQuery_vegan_tofu (it : List (String × FilterVal)) :
    restQuery veganTofuParams it =
      (baseSelect ++ strConcat (dietFrags it) ++ " AND ingredients LIKE ?" ++
         " ORDER BY id ASC" ++ " LIMIT 100",
       dietArgs it ++ [likeArg "tofu"]) := by
  have h1 : tokCount "tofu" = 1 := by decide
  have h2 : tokArgs "tofu" = [likeArg "tofu"] := by decide
  have h3 : restSortClause "id" "asc" = " ORDER BY id ASC" := by decide
  rw [restQuery_eq]
  unfold restPredicateText restPredicateArgs dietBlockText dietBlockArgs
  unfold veganTofuParams
  simp [searchGate_empty, intGate_empty, floatGate_empty, tokCount_empty,
    tokArgs_empty, intArgs_empty, floatArgs_empty, strRepeat_zero, strRepeat_one,
    dietPlansLookup, h1, h2, h3]

set_option maxRecDepth 40000 in
/-- C4 counterexample: the REST search with diet `vegan` and
`include_ingredients=tofu` is ordered by the default `id ASC`, not by
fiber descending — `applyDietFilters` has no case for the preset's
`sort_by`/`sort_order` entries, so they are silently dropped. -/
theorem c4_counterexample_vegan_not_sorted_by_fiber :
    (restQuery veganTofuParams veganFilters).1 =
      baseSelect ++ strRepeat " AND ingredients NOT LIKE ?" 10 ++
        " AND ingredients LIKE ?" ++ " ORDER BY id ASC" ++ " LIMIT 100" ∧
    strContains (restQuery veganTofuParams veganFilters).1 "ORDER BY fiber" =
      false := by
  have h : (restQuery veganTofuParams veganFilters).1 =
      baseSelect ++ strRepeat " AND ingredients NOT LIKE ?" 10 ++
        " AND ingredients LIKE ?" ++ " ORDER BY id ASC" ++ " LIMIT 100" := by
    rw [restQuery_eq]; decide
  exact ⟨h, by rw [h]; decide⟩

set_option maxRecDepth 40000 in
/-- C4 (amended): for every iteration order of the vegan filter map, the
generated query contains exactly ten `ingredients NOT LIKE ?` exclusion
fragments (with the vegan tokens as arguments) plus one
`ingredients LIKE ?` inclusion fragment with argument `%tofu%` and is
capped at 100 rows — but it is ordered by the default `id` ascending: a
preset's range and ingredient constraints are translated with the same
fragment text as the equivalent caller filters (the keto conjuncts show
the range-fragment multiset parity), while the preset's
`sort_by`/`sort_order` entries are ignored by the engine. -/
theorem c4_vegan_scenario_sorted_by_id :
    (∀ it : List (String × FilterVal), it.Perm veganFilters →
        restQuery veganTofuParams it =
          (baseSelect ++ strRepeat " AND ingredients NOT LIKE ?" 10 ++
             " AND ingredients LIKE ?" ++ " ORDER BY id ASC" ++ " LIMIT 100",
           veganExclusionArgs ++ [likeArg "tofu"])) ∧
    (restPredicate { diet := "keto" } ketoFilters).1 =
      baseSelect ++ " AND carbs <= ?" ++ " AND fat >= ?" ∧
    (restPredicate { minFat := "15", maxCarbs := "20" } []).1 =
      baseSelect ++ " AND fat >= ?" ++ " AND carbs <= ?" ∧
    ([" AND carbs <= ?", " AND fat >= ?"] : List String).Perm
      [" AND fat >= ?", " AND carbs <= ?"] := by
  refine ⟨?_, ?_, ?_, by decide⟩
  · have hall : ∀ l ∈ veganFilters.permutations',
        strConcat (dietFrags l) = strRepeat " AND ingredients NOT LIKE ?" 10 ∧
        dietArgs l = veganExclusionArgs := by decide
    intro it hp
    have h12 := hall it (List.mem_permutations'.mpr hp)
    rw [restQuery_vegan_tofu it, h12.1, h12.2]
  · rw [restPredicate_eq]; decide
  · rw [restPredicate_eq]; decide

/-- C4 witness: the amended scenario applied at the canonical iteration
order of the vegan filter map. -/
theorem c4_vegan_witness :
    restQuery veganTofuParams veganFilters =
      (baseSelect ++ strRepeat " AND ingredients NOT LIKE ?" 10 ++
         " AND ingredients LIKE ?" ++ " ORDER BY id ASC" ++ " LIMIT 100",
       veganExclusionArgs ++ [likeArg "tofu"]) :=
  c4_vegan_scenario_sorted_by_id.1 veganFilters (List.Perm.refl _)

/-- C6: the sort whitelist is fail-closed on both surfaces: a sort_by
value outside the fixed column set emits no ORDER BY clause at all (the
query is just the predicate plus the row cap, and is the same whatever
the rejected value was), while a whitelisted value is emitted exactly,
with direction chosen only between the literals ASC and DESC. -/
theorem c6_sort_whitelist_closure :
    (∀ sb so : String, validSortColumnsRest sb = false →
        restSortClause sb so = "" ∧ mcpSortClause sb so = "") ∧
    (∀ sb so : String, validSortColumnsRest sb = true →
        restSortClause sb so =
          " ORDER BY " ++ sb ++ (if so = "desc" then " DESC" else " ASC") ∧
        mcpSortClause sb so =
          " ORDER BY " ++ sb ++ (if so = "desc" then " DESC" else " ASC")) ∧
    (∀ (p : RestParams) (it : List (String × FilterVal)),
        (restQuery p it).1 =
          (restPredicate p it).1 ++
            restSortClause (p.sortBy.getD "id") (p.sortOrder.getD "asc") ++
            " LIMIT 100") ∧
    (∀ (p : RestParams) (it : List (String × FilterVal)) (s1 s2 : Option String),
        restPredicate { p with sortBy := s1 } it =
          restPredicate { p with sortBy := s2 } it) := by
  refine ⟨?_, ?_, fun p it => rfl, fun p it s1 s2 => rfl⟩
  · intro sb so h
    exact ⟨by simp [restSortClause, h],
           by simp [mcpSortClause, show validSortColumnsMcp sb = false from h]⟩
  · intro sb so h
    constructor
    · by_cases hso : so = "desc" <;> simp [restSortClause, h, hso]
    · by_cases hso : so = "desc" <;>
        simp [mcpSortClause, show validSortColumnsMcp sb = true from h, hso]

set_option maxRecDepth 40000 in
/-- C6 witness: the whitelist closure applied to the injection attempt
`1=1;DROP TABLE recipes`: the value is rejected, no ORDER BY is emitted,
and the full generated query does not contain the input string. -/
theorem c6_sort_whitelist_witness :
    validSortColumnsRest "1=1;DROP TABLE recipes" = false ∧
    restSortClause "1=1;DROP TABLE recipes" "asc" = "" ∧
    mcpSortClause "1=1;DROP TABLE recipes" "desc" = "" ∧
    strContains (restQuery { sortBy := some "1=1;DROP TABLE recipes" } []).1
      "1=1;DROP TABLE recipes" = false := by
  have h : validSortColumnsRest "1=1;DROP TABLE recipes" = false := by decide
  refine ⟨h, (c6_sort_whitelist_closure.1 _ "asc" h).1,
          (c6_sort_whitelist_closure.1 _ "desc" h).2, ?_⟩
  have hq : (restQuery { sortBy := some "1=1;DROP TABLE recipes" } []).1 =
      baseSelect ++ " LIMIT 100" := by
    rw [restQuery_eq]; decide
  rw [hq]; decide

/-- C10: the sort direction is fail-closed: whenever the ORDER BY clause
is emitted, any sort_order other than the exact string `desc` (including
`DESC`, `descending`, or arbitrary text) yields the literal ` ASC`, the
clause built from such a value is identical to the one built from
`asc`, and the caller-supplied sort_order string itself is never
concatenated into the query text. -/
theorem c10_sort_order_fail_closed :
    ∀ sb so : String, so ≠ "desc" →
      restSortClause sb so = restSortClause sb "asc" ∧
      mcpSortClause sb so = mcpSortClause sb "asc" ∧
      (validSortColumnsRest sb = true →
        restSortClause sb so = " ORDER BY " ++ sb ++ " ASC" ∧
        mcpSortClause sb so = " ORDER BY " ++ sb ++ " ASC") := by
  intro sb so h
  refine ⟨?_, ?_, fun hv => ⟨?_, ?_⟩⟩
  · simp [restSortClause, h]
  · simp [mcpSortClause, h]
  · simp [restSortClause, h, hv]
  · simp [mcpSortClause, h, show validSortColumnsMcp sb = true from hv]

/-- C10 witness: the fail-closed direction applied at sort_by `rating`
and sort_order `DESC` (wrong case), which yields ` ASC`. -/
theorem c10_sort_order_witness :
    restSortClause "rating" "DESC" = " ORDER BY " ++ "rating" ++ " ASC" ∧
    mcpSortClause "rating" "DESC" = " ORDER BY " ++ "rating" ++ " ASC" :=
  (c10_sort_order_fail_closed "rating" "DESC" (by decide)).2.2 (by decide)

theorem restPredicateText_congr (p q : RestParams) (it : List (String × FilterVal))
    (h : SameShape p q) :
    restPredicateText p it = restPredicateText q it ∧
    restSortClause (p.sortBy.getD "id") (p.sortOrder.getD "asc") =
      restSortClause (q.sortBy.getD "id") (q.sortOrder.getD "asc") := by
  obtain ⟨h1, h2, h3, h4, h5, h6, h7, h8, h9, h10, h11, h12, h13, h14, h15, h16,
    h17, h18, h19, h20, h21, h22, h23, h24, h25, h26, h27, h28⟩ := h
  constructor
  · unfold restPredicateText
    rw [h1, h2, h3, h4, h5, h6, h7, h8, h9, h10, h11, h12, h13, h14, h15, h16,
      h17, h18, h19, h20, h21, h22, h23, h24, h25, h26]
  · rw [h27, h28]

/-- C1: injection safety of the REST query builder.  (a) The generated
query text is exactly `restPredicateText` — a concatenation of fixed
literal SQL fragments selected only by parse-success gates, token
counts, the diet lookup, and the whitelisted sort clause — followed by
the fixed sort clause and row cap, and the argument list is exactly
`restPredicateArgs`: every caller value lives in the argument list.
(b) Consequently two requests of the same shape (same fields set, same
token counts, same parse outcomes, same sort parameters) yield
byte-identical query text whatever the values contain. -/
theorem c1_injection_safe_query_shape :
    (∀ (p : RestParams) (it : List (String × FilterVal)),
        (restQuery p it).1 =
          restPredicateText p it ++
            restSortClause (p.sortBy.getD "id") (p.sortOrder.getD "asc") ++
            " LIMIT 100" ∧
        (restQuery p it).2 = restPredicateArgs p it) ∧
    (∀ (p q : RestParams) (it : List (String × FilterVal)),
        SameShape p q → (restQuery p it).1 = (restQuery q it).1) := by
  constructor
  · intro p it
    rw [restQuery_eq]
    exact ⟨rfl, rfl⟩
  · intro p q it h
    have hc := restPredicateText_congr p q it h
    rw [restQuery_eq, restQuery_eq]
    simp only [hc.1, hc.2]

set_option maxRecDepth 40000 in
/-- C1 witness: a plain search and an injection-shaped search with the
same shape produce byte-identical query text. -/
theorem c1_injection_witness :
    SameShape { search := "x", includeIngredients := "a,b" }
      { search := "x ; DROP TABLE recipes --", includeIngredients := "%_,%%" } ∧
    (restQuery { search := "x", includeIngredients := "a,b" } []).1 =
      (restQuery { search := "x ; DROP TABLE recipes --",
                   includeIngredients := "%_,%%" } []).1 :=
  ⟨by decide, c1_injection_safe_query_shape.2 _ _ [] (by decide)⟩

set_option maxRecDepth 40000 in
/-- C2 counterexample: for the logical filter `min_calories = 100`,
supplied as the string `"100"` on both surfaces, the fragment text
agrees but the argument lists differ: the REST surface appends a Go
`int` (via `strconv.Atoi`) while the RPC surface appends a `float64`
(via `strconv.ParseFloat`), so the two surfaces do not produce
identical argument lists. -/
theorem c2_counterexample_numeric_arg_typing :
    (restPredicate { minCalories := "100" } []).1 =
      (mcpPredicate [("min_calories", .vstr "100")] mcpFilterTable []).1 ∧
    (restPredicate { minCalories := "100" } []).2 = [SqlArg.sint 100] ∧
    (mcpPredicate [("min_calories", .vstr "100")] mcpFilterTable []).2 =
      [SqlArg.sfloat (.finite 100)] ∧
    ([SqlArg.sint 100] : List SqlArg) ≠ [SqlArg.sfloat (.finite 100)] := by
  have hpf : goParseFloat "100" = some (.finite 100) := by decide
  have hmcp : mcpPredicate [("min_calories", .vstr "100")] mcpFilterTable [] =
      (baseSelect ++ " AND calories >= ?", [SqlArg.sfloat (.finite 100)]) := by
    simp [mcpPredicate, mcpStep, mcpFilterTable, List.lookup, hpf]
    decide
  refine ⟨?_, ?_, by rw [hmcp], by decide⟩
  · rw [restPredicate_eq, hmcp]; decide
  · rw [restPredicate_eq]; decide

set_option maxRecDepth 40000 in
/-- C2 (amended): the REST and RPC surfaces share the sort whitelist and
sort-clause semantics exactly, produce byte-identical predicate
fragments and identical argument lists for the shared non-numeric
filters (text search, include/exclude ingredients; shown at the
source-order iteration of the RPC filter table, whose multiset is
order-invariant by the C7 theorem), and both ignore unknown argument
keys; but numeric values are typed differently (REST `int` vs RPC
`float64`, see the counterexample), so full byte-level parity fails. -/
theorem c2_surface_parity_on_shared_non_numeric_filters :
    validSortColumnsRest = validSortColumnsMcp ∧
    (∀ sb so : String, restSortClause sb so = mcpSortClause sb so) ∧
    (∀ s : String, s ≠ "" →
        mcpPredicate [("search", .vstr s)] mcpFilterTable [] =
          restPredicate { search := s } []) ∧
    (∀ s : String, s ≠ "" →
        mcpPredicate [("include_ingredients", .vstr s)] mcpFilterTable [] =
          restPredicate { includeIngredients := s } [] ∧
        mcpPredicate [("exclude_ingredients", .vstr s)] mcpFilterTable [] =
          restPredicate { excludeIngredients := s } []) ∧
    (∀ (k : String) (v : MCPVal), (∀ key ∈ mcpKnownKeys, k ≠ key) →
        mcpQuery [(k, v)] mcpFilterTable [] = mcpQuery [] mcpFilterTable []) := by
  refine ⟨rfl, fun sb so => rfl, ?_, ?_, ?_⟩
  · intro s h
    rw [restPredicate_eq]
    unfold restPredicateText restPredicateArgs
    simp [mcpPredicate, mcpStep, mcpFilterTable, List.lookup, h, searchGate,
      intGate_empty, floatGate_empty, tokCount_empty, tokArgs_empty,
      intArgs_empty, floatArgs_empty, strRepeat_zero, strConcat_nil,
      dietBlockText_empty, dietBlockArgs_empty, String.append_assoc,
      show (" " ++ "AND (name LIKE ? OR description LIKE ?)" : String) =
        " AND (name LIKE ? OR description LIKE ?)" from rfl]
  · intro s h
    constructor
    · rw [restPredicate_eq]
      unfold restPredicateText restPredicateArgs
      simp [mcpPredicate, mcpStep, mcpFilterTable, List.lookup, h,
        trimIngredientLoop_eq, tokCount, tokArgs, searchGate_empty,
        intGate_empty, floatGate_empty, intArgs_empty, floatArgs_empty,
        strRepeat_zero, strConcat_nil, dietBlockText_empty, dietBlockArgs_empty,
        String.append_assoc, strRepeat, List.map_const',
        show (" " ++ "AND ingredients LIKE ?" : String) =
          " AND ingredients LIKE ?" from rfl]
    · rw [restPredicate_eq]
      unfold restPredicateText restPredicateArgs
      simp [mcpPredicate, mcpStep, mcpFilterTable, List.lookup, h,
        trimIngredientLoop_eq, tokCount, tokArgs, searchGate_empty,
        intGate_empty, floatGate_empty, intArgs_empty, floatArgs_empty,
        strRepeat_zero, strConcat_nil, dietBlockText_empty, dietBlockArgs_empty,
        String.append_assoc, strRepeat, List.map_const',
        show (" " ++ "AND ingredients NOT LIKE ?" : String) =
          " AND ingredients NOT LIKE ?" from rfl]
  · intro k v hk
    have hne : ∀ key ∈ mcpKnownKeys, (key == k) = false := fun key hmem =>
      beq_eq_false_iff_ne.mpr fun he => hk key hmem he.symm
    have e1 := hne "diet" (by decide)
    have e2 := hne "search" (by decide)
    have e3 := hne "include_ingredients" (by decide)
    have e4 := hne "exclude_ingredients" (by decide)
    have e5 := hne "min_calories" (by decide)
    have e6 := hne "max_calories" (by decide)
    have e7 := hne "min_protein" (by decide)
    have e8 := hne "max_protein" (by decide)
    have e9 := hne "min_carbs" (by decide)
    have e10 := hne "max_carbs" (by decide)
    have e11 := hne "max_prep_time" (by decide)
    have e12 := hne "sort_by" (by decide)
    have e13 := hne "sort_order" (by decide)
    simp [mcpQuery, mcpPredicate, mcpStep, mcpFilterTable, mcpSortBy,
      mcpSortOrder, List.lookup, e1, e2, e3, e4, e5, e6, e7, e8, e9, e10, e11,
      e12, e13]

set_option maxRecDepth 40000 in
/-- C2 witness: search parity at `tofu` and unknown-key transparency at
the key `made_up_key`. -/
theorem c2_parity_witness :
    mcpPredicate [("search", .vstr "tofu")] mcpFilterTable [] =
      restPredicate { search := "tofu" } [] ∧
    mcpQuery [("made_up_key", .vstr "zzz")] mcpFilterTable [] =
      mcpQuery [] mcpFilterTable [] :=
  ⟨c2_surface_parity_on_shared_non_numeric_filters.2.2.1 "tofu" (by decide),
   c2_surface_parity_on_shared_non_numeric_filters.2.2.2.2 "made_up_key"
     (.vstr "zzz") (by decide)⟩

end Emeal
